import Mathlib

/-!
Verification of the hihiirokane Vulkan renderer core
(src/aerugo-comp/framework/src/vulkan/renderer/mod.rs).

The renderer state, its render loop, the render-pass construction, the
staging machinery and the teardown sequence are embedded as executable Lean
definitions.  Device interaction is modelled as an explicit trace of
`DevCall` values together with a success oracle `ok : DevCall → Bool`
deciding which device calls succeed.  Components whose code lives in
renderer submodules not present here (alloc.rs, mem.rs, bind.rs) are
modelled from the specification and carry a doc comment saying so.
-/

namespace Hihiirokane

/-- Pixel format, standing for vk::Format (an opaque enum value). -/
abbrev Format := Nat

/-- Handle of a created render pass object. -/
abbrev RenderPassHandle := Nat

/-- The renderer's two command buffers: the primary (composited frame) buffer
and the staging (deferred upload) buffer, both allocated from one pool. -/
inductive CB
  | primary
  | staging
  deriving DecidableEq

/-- The renderer error enum from mod.rs (the variants the core claims use). -/
inductive RError
  | Vk
  | MissingRequiredExtensions
  | NoTarget
  | MissingMandatoryFormats
  | TooManyAllocations (max : Nat)
  deriving DecidableEq

/-- One raw device call issued by the renderer; the trace of a run is a
`List DevCall`. -/
inductive DevCall
  | beginCommandBuffer (cb : CB)
  | cmdBeginRenderPass
  | cmdEndRenderPass
  | endCommandBuffer (cb : CB)
  | resetFences
  | queueSubmit (cbs : List CB)
  | createBuffer (size : Nat)
  | allocateMemory (size : Nat)
  | cmdCopyBuffer (cb : CB)
  | destroyBuffer (buffer : Nat)
  | freeMemory (memory : Nat)
  | freeCommandBuffers (cbs : List CB)
  | destroyCommandPool
  | waitForFences
  | destroyFence
  | destroyFramebuffer (fb : Nat)
  | destroyRenderPass (rp : RenderPassHandle)
  | createRenderPass (format : Format)
  deriving DecidableEq

/-- Modelled from the spec: `AllocationIdTracker` lives in renderer/alloc.rs,
which is not among the provided sources; §4.1 gives its contract:
`allocate` issues an opaque id or fails with the allocation-limit error when
`live_count` would exceed `max_allocations` (supplied at construction from
the physical device's reported limit), `free` retires an id, and the tracker
has no side effect beyond the count.  Live ids are kept as a list so that
`free` of a live id removes exactly that id. -/
structure AllocationIdTracker where
  max_allocations : Nat
  live : List Nat
  next_id : Nat
  deriving DecidableEq

def AllocationIdTracker.new (max : Nat) : AllocationIdTracker :=
  ⟨max, [], 0⟩

def AllocationIdTracker.live_count (t : AllocationIdTracker) : Nat :=
  t.live.length

def AllocationIdTracker.allocate (t : AllocationIdTracker) :
    Except RError (Nat × AllocationIdTracker) :=
  if t.max_allocations ≤ t.live_count then
    .error (.TooManyAllocations t.max_allocations)
  else
    .ok (t.next_id, ⟨t.max_allocations, t.next_id :: t.live, t.next_id + 1⟩)

def AllocationIdTracker.free (t : AllocationIdTracker) (id : Nat) :
    AllocationIdTracker :=
  ⟨t.max_allocations, t.live.erase id, t.next_id⟩

/-- One step of a client: request an allocation or free an id. -/
inductive AllocOp
  | alloc
  | free (id : Nat)

/-- Apply one tracker operation; a failing `allocate` leaves the tracker as
it was. -/
def AllocationIdTracker.step (t : AllocationIdTracker) (op : AllocOp) :
    AllocationIdTracker :=
  match op with
  | .alloc =>
    match t.allocate with
    | .ok r => r.2
    | .error _ => t
  | .free id => t.free id

/-- Run a whole sequence of allocate/free operations. -/
def AllocationIdTracker.run (t : AllocationIdTracker) (ops : List AllocOp) :
    AllocationIdTracker :=
  ops.foldl AllocationIdTracker.step t

/-- Retire a list of allocation ids one by one. -/
def freeIds (t : AllocationIdTracker) (ids : List Nat) : AllocationIdTracker :=
  ids.foldl AllocationIdTracker.free t

/-- The currently bound render target (mod.rs, struct RenderTarget). -/
structure RenderTarget where
  framebuffer : Nat
  render_pass : RenderPassHandle
  width : Nat
  height : Nat
  deriving DecidableEq

/-- A transient staging buffer (mod.rs, struct StagingBuffer). -/
structure StagingBuffer where
  buffer : Nat
  buffer_size : Nat
  memory : Nat
  memory_allocation_id : Nat
  deriving DecidableEq

/-- The renderer state (mod.rs, struct VulkanRenderer).  The fixed handles
(command pool, the two command buffers, the fence) are represented by the
`CB` constructors and the dedicated `DevCall` constructors; `next_handle`
is a freshness source for buffer/memory/render-pass handles. -/
structure VulkanRenderer where
  recording_staging : Bool
  allocator : AllocationIdTracker
  staging_buffers : List StagingBuffer
  renderpasses : List (Format × RenderPassHandle)
  next_handle : Nat
  target : Option RenderTarget
  deriving DecidableEq

/-- Pipeline stage flags used by create_renderpass. -/
inductive PipelineStage
  | HOST
  | TRANSFER
  | TOP_OF_PIPE
  | COLOR_ATTACHMENT_OUTPUT
  | ALL_GRAPHICS
  | BOTTOM_OF_PIPE
  deriving DecidableEq

/-- Access flags used by create_renderpass. -/
inductive AccessFlag
  | HOST_WRITE
  | TRANSFER_WRITE
  | COLOR_ATTACHMENT_WRITE
  | TRANSFER_READ
  | MEMORY_READ
  deriving DecidableEq

/-- Image layouts used by create_renderpass. -/
inductive ImageLayout
  | GENERAL
  | COLOR_ATTACHMENT_OPTIMAL
  deriving DecidableEq

/-- Attachment load operations. -/
inductive LoadOp
  | LOAD
  | CLEAR
  | DONT_CARE
  deriving DecidableEq

/-- Attachment store operations. -/
inductive StoreOp
  | STORE
  | DONT_CARE
  deriving DecidableEq

/-- vk::SUBPASS_EXTERNAL: a subpass reference that is outside the render
pass; `some n` refers to subpass n. -/
def SUBPASS_EXTERNAL : Option Nat := none

structure SubpassDependency where
  src_subpass : Option Nat
  src_stage_mask : List PipelineStage
  src_access_mask : List AccessFlag
  dst_subpass : Option Nat
  dst_stage_mask : List PipelineStage
  dst_access_mask : List AccessFlag
  deriving DecidableEq

structure AttachmentReference where
  attachment : Nat
  layout : ImageLayout
  deriving DecidableEq

structure SubpassDescription where
  color_attachments : List AttachmentReference
  deriving DecidableEq

structure AttachmentDescription where
  format : Format
  load_op : LoadOp
  store_op : StoreOp
  stencil_load_op : LoadOp
  stencil_store_op : StoreOp
  initial_layout : ImageLayout
  final_layout : ImageLayout
  deriving DecidableEq

structure RenderPassCreateInfo where
  attachments : List AttachmentDescription
  subpasses : List SubpassDescription
  dependencies : List SubpassDependency
  deriving DecidableEq

/-- The render-pass create info built by VulkanRenderer::create_renderpass
(mod.rs lines 424-485), transcribed field by field. -/
def renderPassCreateInfo (format : Format) : RenderPassCreateInfo :=
  { attachments := [
      { format := format
        load_op := .LOAD
        store_op := .STORE
        stencil_load_op := .DONT_CARE
        stencil_store_op := .DONT_CARE
        initial_layout := .GENERAL
        final_layout := .GENERAL }]
    subpasses := [
      { color_attachments := [{ attachment := 0, layout := .COLOR_ATTACHMENT_OPTIMAL }] }]
    dependencies := [
      { src_subpass := SUBPASS_EXTERNAL
        src_stage_mask := [.HOST, .TRANSFER, .TOP_OF_PIPE, .COLOR_ATTACHMENT_OUTPUT]
        src_access_mask := [.HOST_WRITE, .TRANSFER_WRITE, .COLOR_ATTACHMENT_WRITE]
        dst_subpass := some 0
        dst_stage_mask := [.ALL_GRAPHICS]
        dst_access_mask := [] },
      { src_subpass := some 0
        src_stage_mask := [.COLOR_ATTACHMENT_OUTPUT]
        src_access_mask := [.COLOR_ATTACHMENT_WRITE]
        dst_subpass := SUBPASS_EXTERNAL
        dst_stage_mask := [.TRANSFER, .HOST, .BOTTOM_OF_PIPE]
        dst_access_mask := [.TRANSFER_READ, .MEMORY_READ] }] }

/-- VulkanRenderer::create_renderpass: creates the render pass described by
`renderPassCreateInfo` on the device and memoizes it in the `renderpasses`
map under `format` (insertion shadows an older entry, as HashMap::insert
replaces it). -/
def VulkanRenderer.create_renderpass (st : VulkanRenderer) (format : Format) :
    (RenderPassHandle × VulkanRenderer) × List DevCall :=
  let rp := st.next_handle
  ((rp, { st with
            renderpasses := (format, rp) :: st.renderpasses
            next_handle := st.next_handle + 1 }),
   [.createRenderPass format])

/-- VulkanRenderer::get_or_create_renderpasses (mod.rs lines 406-408): in
the source this is `self.renderpasses.get(&format).copied()` — a pure cache
lookup that issues no device call and never inserts. -/
def VulkanRenderer.get_or_create_renderpasses (st : VulkanRenderer)
    (format : Format) : Option RenderPassHandle × List DevCall :=
  (st.renderpasses.lookup format, [])

/-- VulkanRenderer::recording_staging_buffer (mod.rs lines 494-506): when
`recording_staging` is false it begins the staging command buffer, then
returns the staging buffer handle.  Exactly as in the source, the
`recording_staging` field is NOT set to true here. -/
def VulkanRenderer.recording_staging_buffer (ok : DevCall → Bool)
    (st : VulkanRenderer) : Except RError (CB × VulkanRenderer) × List DevCall :=
  if !st.recording_staging then
    if ok (.beginCommandBuffer .staging) then
      (.ok (.staging, st), [.beginCommandBuffer .staging])
    else
      (.error .Vk, [.beginCommandBuffer .staging])
  else
    (.ok (.staging, st), [])

/-- Modelled from the spec: the `stage` upload path lives in renderer/mem.rs,
which is not among the provided sources; §4.2 gives its contract: (a)
allocate a host-visible buffer sized to the payload, (b) request an
AllocationId from the tracker, failing with the tracker's error, (c) record
a copy command into the staging command buffer obtained from
`recording_staging_buffer` (which is embedded from the source), and (d)
append the StagingBuffer to the in-flight list.  On failure the renderer
state is left as it was before the call. -/
def VulkanRenderer.stage (ok : DevCall → Bool) (st : VulkanRenderer)
    (bytes : Nat) : Except RError VulkanRenderer × List DevCall :=
  let buffer := st.next_handle
  let memory := st.next_handle + 1
  let st1 := { st with next_handle := st.next_handle + 2 }
  let tr1 : List DevCall := [.createBuffer bytes, .allocateMemory bytes]
  match st1.allocator.allocate with
  | .error e => (.error e, tr1)
  | .ok ra =>
    let st2 := { st1 with allocator := ra.2 }
    match st2.recording_staging_buffer ok with
    | (.error e, tr2) => (.error e, tr1 ++ tr2)
    | (.ok rb, tr2) =>
      let st3 := rb.2
      (.ok { st3 with staging_buffers :=
               st3.staging_buffers ++ [⟨buffer, bytes, memory, ra.1⟩] },
       tr1 ++ tr2 ++ [.cmdCopyBuffer rb.1])

/-- VulkanRenderer::free_staging_buffers (mod.rs lines 511-520): drains the
in-flight list, destroying each buffer and freeing its backing memory.
The retirement of each buffer's `memory_allocation_id` in the tracker is
modelled from the spec (§4.2: reclaiming "frees the corresponding
AllocationId"): the AllocationId type lives in renderer/alloc.rs, which is
not among the provided sources, and dropping the drained StagingBuffer
values retires their ids. -/
def VulkanRenderer.free_staging_buffers (st : VulkanRenderer) :
    VulkanRenderer × List DevCall :=
  ({ st with
      staging_buffers := []
      allocator := freeIds st.allocator
        (st.staging_buffers.map fun sb => sb.memory_allocation_id) },
   (st.staging_buffers.map fun sb =>
      [DevCall.destroyBuffer sb.buffer, DevCall.freeMemory sb.memory]).flatten)

/-- Modelled from the spec: the Unbind implementation lives in
renderer/bind.rs, which is not among the provided sources; §4.4 says
unbinding releases the previously bound target. -/
def VulkanRenderer.unbind (st : VulkanRenderer) : VulkanRenderer × List DevCall :=
  match st.target with
  | none => ({ st with target := none }, [])
  | some t => ({ st with target := none }, [.destroyFramebuffer t.framebuffer])

/-- The Drop implementation for VulkanRenderer (mod.rs lines 331-368),
as the trace of device calls it issues, in source order: free the primary
command buffer, destroy the command pool, wait on the submit fence, destroy
the fence, unbind the target, destroy the cached render passes, free the
staging buffers. -/
def VulkanRenderer.dropRenderer (st : VulkanRenderer) : List DevCall :=
  let ub := st.unbind
  DevCall.freeCommandBuffers [CB.primary] ::
  DevCall.destroyCommandPool ::
  DevCall.waitForFences ::
  DevCall.destroyFence ::
  (ub.2
    ++ ub.1.renderpasses.map (fun p => DevCall.destroyRenderPass p.2)
    ++ (ub.1.free_staging_buffers).2)

deriving instance DecidableEq for Except

/-- Result of one render call: the returned value or error, the renderer
state afterwards, the device-call trace, and whether the drawing callback
was invoked. -/
structure RenderResult (α : Type) where
  result : Except RError α
  state : VulkanRenderer
  trace : List DevCall
  ranCallback : Bool
  deriving DecidableEq

/-- The staging uploads a drawing callback performs, run in order; an upload
whose stage call fails is swallowed by the callback, which carries on. -/
def VulkanRenderer.runUploads (ok : DevCall → Bool) :
    VulkanRenderer → List Nat → VulkanRenderer × List DevCall
  | st, [] => (st, [])
  | st, b :: rest =>
    match st.stage ok b with
    | (.ok st2, tr) =>
      let r := VulkanRenderer.runUploads ok st2 rest
      (r.1, tr ++ r.2)
    | (.error _, tr) =>
      let r := VulkanRenderer.runUploads ok st rest
      (r.1, tr ++ r.2)

/-- The tail of Renderer::render after the render pass has ended and the
staging buffer (if flagged) was closed: end the primary command buffer,
reset the submit fence, submit only the primary command buffer
(mod.rs lines 310-323). -/
def VulkanRenderer.finishFrame {α : Type} (ok : DevCall → Bool)
    (st : VulkanRenderer) (tr : List DevCall) (r : α) : RenderResult α :=
  if ok (.endCommandBuffer .primary) then
    if ok .resetFences then
      if ok (.queueSubmit [.primary]) then
        ⟨.ok r, st,
         tr ++ [.endCommandBuffer .primary, .resetFences, .queueSubmit [.primary]],
         true⟩
      else
        ⟨.error .Vk, st,
         tr ++ [.endCommandBuffer .primary, .resetFences, .queueSubmit [.primary]],
         true⟩
    else
      ⟨.error .Vk, st, tr ++ [.endCommandBuffer .primary, .resetFences], true⟩
  else
    ⟨.error .Vk, st, tr ++ [.endCommandBuffer .primary], true⟩

/-- Renderer::render for VulkanRenderer (mod.rs lines 255-324): resolve the
bound target or fail with NoTarget; begin the primary command buffer
(one-time-submit); begin the render pass; run the drawing callback (its
staging uploads and its return value `r`); end the render pass; if
`recording_staging` is set, clear it and end the staging command buffer;
then finish the frame.  Every attempted device call is on the trace. -/
def VulkanRenderer.render {α : Type} (ok : DevCall → Bool)
    (st : VulkanRenderer) (_size : Nat × Nat) (uploads : List Nat) (r : α) :
    RenderResult α :=
  match st.target with
  | none => ⟨.error .NoTarget, st, [], false⟩
  | some _t =>
    if ok (.beginCommandBuffer .primary) then
      let su := VulkanRenderer.runUploads ok st uploads
      let st1 := su.1
      let tr : List DevCall :=
        DevCall.beginCommandBuffer CB.primary :: DevCall.cmdBeginRenderPass ::
          (su.2 ++ [DevCall.cmdEndRenderPass])
      if st1.recording_staging then
        let st2 := { st1 with recording_staging := false }
        if ok (.endCommandBuffer .staging) then
          VulkanRenderer.finishFrame ok st2 (tr ++ [.endCommandBuffer .staging]) r
        else
          ⟨.error .Vk, st2, tr ++ [.endCommandBuffer .staging], true⟩
      else
        VulkanRenderer.finishFrame ok st1 tr r
    else
      ⟨.error .Vk, st, [.beginCommandBuffer .primary], false⟩

/-- A concrete render target used by concrete runs. -/
def targetA : RenderTarget := ⟨1, 0, 256, 256⟩

/-- A concrete renderer state with a bound 256x256 target, an empty staging
pool, one cached render pass and a roomy allocation limit. -/
def stBound : VulkanRenderer :=
  { recording_staging := false
    allocator := AllocationIdTracker.new 4096
    staging_buffers := []
    renderpasses := [(0, 0)]
    next_handle := 10
    target := some targetA }

/-- A concrete renderer state with no bound target. -/
def stUnbound : VulkanRenderer :=
  { recording_staging := false
    allocator := AllocationIdTracker.new 4096
    staging_buffers := []
    renderpasses := [(0, 0)]
    next_handle := 10
    target := none }

/-- A concrete renderer state with two in-flight staging buffers whose
allocation ids are live in the tracker. -/
def stStaged : VulkanRenderer :=
  { recording_staging := false
    allocator := ⟨4096, [21, 20], 22⟩
    staging_buffers := [⟨11, 64, 12, 20⟩, ⟨13, 128, 14, 21⟩]
    renderpasses := [(0, 0)]
    next_handle := 15
    target := some targetA }

/-- The success oracle under which every device call succeeds. -/
def allOk : DevCall → Bool := fun _ => true

/-- An oracle under which beginning the primary command buffer fails and
every other device call succeeds. -/
def noBegin : DevCall → Bool := fun c =>
  match c with
  | .beginCommandBuffer .primary => false
  | _ => true

/-- An oracle under which queue submission fails and every other device
call succeeds. -/
def noSubmit : DevCall → Bool := fun c =>
  match c with
  | .queueSubmit _ => false
  | _ => true

/- Helper lemmas. -/

theorem AllocationIdTracker.step_max (t : AllocationIdTracker) (op : AllocOp) :
    (t.step op).max_allocations = t.max_allocations := by
  cases op with
  | alloc =>
    unfold AllocationIdTracker.step AllocationIdTracker.allocate
    by_cases h : t.max_allocations ≤ t.live_count <;> simp [h]
  | free id => rfl

theorem AllocationIdTracker.step_le (t : AllocationIdTracker) (op : AllocOp)
    (h : t.live_count ≤ t.max_allocations) :
    (t.step op).live_count ≤ t.max_allocations := by
  cases op with
  | alloc =>
    unfold AllocationIdTracker.step AllocationIdTracker.allocate
    by_cases hfull : t.max_allocations ≤ t.live_count
    · simp [hfull]
      exact h
    · simp [hfull]
      unfold AllocationIdTracker.live_count at *
      simp [List.length_cons]
      omega
  | free id =>
    unfold AllocationIdTracker.step AllocationIdTracker.free
    unfold AllocationIdTracker.live_count at *
    calc (t.live.erase id).length ≤ t.live.length := List.length_erase_le id t.live
      _ ≤ t.max_allocations := h

theorem AllocationIdTracker.run_le (t : AllocationIdTracker) (ops : List AllocOp)
    (h : t.live_count ≤ t.max_allocations) :
    (t.run ops).live_count ≤ (t.run ops).max_allocations := by
  induction ops generalizing t with
  | nil => exact h
  | cons op rest ih =>
    have h1 : (t.step op).live_count ≤ (t.step op).max_allocations := by
      rw [AllocationIdTracker.step_max]
      exact AllocationIdTracker.step_le t op h
    exact ih (t.step op) h1

theorem AllocationIdTracker.run_max (t : AllocationIdTracker) (ops : List AllocOp) :
    (t.run ops).max_allocations = t.max_allocations := by
  induction ops generalizing t with
  | nil => rfl
  | cons op rest ih =>
    calc (AllocationIdTracker.run (t.step op) rest).max_allocations
        = (t.step op).max_allocations := ih (t.step op)
      _ = t.max_allocations := AllocationIdTracker.step_max t op

theorem freeIds_live_count (ids : List Nat) :
    ∀ t : AllocationIdTracker, ids.Nodup → (∀ id ∈ ids, id ∈ t.live) →
      (freeIds t ids).live_count = t.live_count - ids.length
      ∧ ids.length ≤ t.live_count := by
  induction ids with
  | nil =>
    intro t _ _
    simp [freeIds, AllocationIdTracker.live_count]
  | cons id0 rest ih =>
    intro t hn hl
    have hmem : id0 ∈ t.live := hl id0 (by simp)
    have hlen : (t.free id0).live_count = t.live_count - 1 := by
      unfold AllocationIdTracker.free AllocationIdTracker.live_count
      exact List.length_erase_of_mem hmem
    have hrest : ∀ id ∈ rest, id ∈ (t.free id0).live := by
      intro id hid
      have hne : id ≠ id0 := by
        intro hcontra
        subst hcontra
        exact (List.nodup_cons.mp hn).1 hid
      exact (List.mem_erase_of_ne hne).mpr (hl id (List.mem_cons_of_mem _ hid))
    have hpos : 0 < t.live_count := List.length_pos_of_mem hmem
    have ihr := ih (t.free id0) (List.nodup_cons.mp hn).2 hrest
    have hstep : freeIds t (id0 :: rest) = freeIds (t.free id0) rest := rfl
    constructor
    · rw [hstep, ihr.1, hlen]
      simp only [List.length_cons]
      omega
    · have h2 := ihr.2
      rw [hlen] at h2
      simp only [List.length_cons]
      omega

theorem stage_flag (ok : DevCall → Bool) (st : VulkanRenderer) (b : Nat)
    (st2 : VulkanRenderer) (tr : List DevCall)
    (h : st.stage ok b = (.ok st2, tr)) :
    st2.recording_staging = st.recording_staging := by
  simp only [VulkanRenderer.stage, VulkanRenderer.recording_staging_buffer,
    AllocationIdTracker.allocate] at h
  by_cases hfull : st.allocator.max_allocations ≤ st.allocator.live_count
  · simp [hfull] at h
  · simp only [hfull, if_false, ite_false] at h
    by_cases hrec : st.recording_staging
    · simp [hrec] at h
      rcases h with ⟨h1, h2⟩
      subst h1
      simp [hrec]
    · by_cases hok : ok (.beginCommandBuffer .staging)
      · simp [hrec, hok] at h
        rcases h with ⟨h1, h2⟩
        subst h1
        simp [hrec]
      · simp [hrec, hok] at h

theorem runUploads_flag (ok : DevCall → Bool) (l : List Nat) :
    ∀ st : VulkanRenderer,
      ((VulkanRenderer.runUploads ok st l).1).recording_staging
        = st.recording_staging := by
  induction l with
  | nil => intro st; rfl
  | cons b rest ih =>
    intro st
    unfold VulkanRenderer.runUploads
    rcases hst : st.stage ok b with ⟨res, tr⟩
    cases res with
    | ok st2 =>
      simp only [hst]
      rw [ih st2, stage_flag ok st b st2 tr hst]
    | error e =>
      simp only [hst]
      exact ih st

/- Claim theorems. -/

/-- C1: for every sequence of allocate and free operations starting from a
fresh tracker, the number of live allocations never exceeds the
`max_allocations` value supplied at construction; moreover any allocate
request made when the limit is reached fails with the allocation-limit
error `TooManyAllocations` and leaves the tracker (hence `live_count`)
unchanged. -/
theorem allocation_tracker_invariant (maxAlloc : Nat) (ops : List AllocOp) :
    ((AllocationIdTracker.new maxAlloc).run ops).live_count ≤ maxAlloc
    ∧ ∀ t : AllocationIdTracker, t.max_allocations ≤ t.live_count →
        t.allocate = .error (.TooManyAllocations t.max_allocations)
        ∧ t.step .alloc = t := by
  constructor
  · have h0 : (AllocationIdTracker.new maxAlloc).live_count ≤ maxAlloc := by
      simp [AllocationIdTracker.new, AllocationIdTracker.live_count]
    have h := AllocationIdTracker.run_le (AllocationIdTracker.new maxAlloc) ops h0
    rwa [AllocationIdTracker.run_max] at h
  · intro t hfull
    have halloc : t.allocate = .error (.TooManyAllocations t.max_allocations) := by
      unfold AllocationIdTracker.allocate
      simp [hfull]
    refine ⟨halloc, ?_⟩
    unfold AllocationIdTracker.step
    rw [halloc]

/-- Witness for C1 at concrete inputs: three allocations against a limit of
two, and an allocate on a full tracker. -/
theorem allocation_tracker_invariant_witness :
    ((AllocationIdTracker.new 2).run
        [.alloc, .alloc, .alloc, .free 0, .alloc]).live_count ≤ 2
    ∧ (⟨2, [1, 0], 2⟩ : AllocationIdTracker).allocate
        = .error (.TooManyAllocations 2)
    ∧ (⟨2, [1, 0], 2⟩ : AllocationIdTracker).step .alloc
        = (⟨2, [1, 0], 2⟩ : AllocationIdTracker) := by
  refine ⟨(allocation_tracker_invariant 2 [.alloc, .alloc, .alloc, .free 0, .alloc]).1,
    ((allocation_tracker_invariant 2 []).2 ⟨2, [1, 0], 2⟩ (by decide)).1,
    ((allocation_tracker_invariant 2 []).2 ⟨2, [1, 0], 2⟩ (by decide)).2⟩

/-- C2: a render call made while no render target is bound fails with the
NoTarget error, leaves the renderer untouched, performs no device call at
all, and never invokes the drawing callback. -/
theorem render_no_target {α : Type} (ok : DevCall → Bool) (st : VulkanRenderer)
    (size : Nat × Nat) (uploads : List Nat) (r : α) (h : st.target = none) :
    st.render ok size uploads r = ⟨.error .NoTarget, st, [], false⟩ := by
  unfold VulkanRenderer.render
  rw [h]

/-- Witness for C2 at a concrete unbound renderer. -/
theorem render_no_target_witness :
    VulkanRenderer.render allOk stUnbound (64, 64) [64] (0 : Nat)
      = ⟨.error .NoTarget, stUnbound, [], false⟩ :=
  render_no_target allOk stUnbound (64, 64) [64] 0 rfl

/-- C3 (code bug): rendering a frame whose callback stages two uploads, with
every device call succeeding, begins the staging command buffer's recording
scope twice — once per staging use, not only on the first — and never ends
it, because `recording_staging_buffer` never sets the `recording_staging`
flag, so the end-of-frame `end_command_buffer` for the staging buffer is
dead code (the flag the field's doc comment describes stays false). -/
theorem staging_begin_never_flagged :
    (VulkanRenderer.render allOk stBound (64, 64) [64, 64] (0 : Nat)).result = .ok 0
    ∧ (VulkanRenderer.render allOk stBound (64, 64) [64, 64] (0 : Nat)).trace.count
        (.beginCommandBuffer .staging) = 2
    ∧ (VulkanRenderer.render allOk stBound (64, 64) [64, 64] (0 : Nat)).trace.count
        (.endCommandBuffer .staging) = 0
    ∧ (VulkanRenderer.render allOk stBound (64, 64) [64, 64]
        (0 : Nat)).state.recording_staging = false := by
  decide

/-- C4 (code bug): in a successful frame whose callback staged one upload, a
copy command was recorded into the staging command buffer, yet the only
queue submission of the frame carries just the primary command buffer — the
staging command buffer is never submitted (nor ended). -/
theorem staging_commands_never_submitted :
    (VulkanRenderer.render allOk stBound (64, 64) [64] (0 : Nat)).result = .ok 0
    ∧ (VulkanRenderer.render allOk stBound (64, 64) [64] (0 : Nat)).trace.count
        (.cmdCopyBuffer .staging) = 1
    ∧ (VulkanRenderer.render allOk stBound (64, 64) [64] (0 : Nat)).trace.filter
        (fun c => match c with | .queueSubmit _ => true | _ => false)
        = [.queueSubmit [.primary]] := by
  decide

/-- C5 (code bug): teardown issues, in order, the primary command buffer
free, the command pool destruction, the fence wait and the fence
destruction — i.e. the fence wait happens AFTER the command buffer free and
the pool destruction, not before them — and the only free_command_buffers
call in the whole teardown trace frees just the primary command buffer,
never the staging one; the fence destruction does follow the wait. -/
theorem teardown_order (st : VulkanRenderer) :
    (st.dropRenderer).take 4 =
      [DevCall.freeCommandBuffers [CB.primary], DevCall.destroyCommandPool,
       DevCall.waitForFences, DevCall.destroyFence]
    ∧ ∀ cbs, DevCall.freeCommandBuffers cbs ∈ st.dropRenderer →
        cbs = [CB.primary] := by
  constructor
  · rfl
  · intro cbs h
    unfold VulkanRenderer.dropRenderer VulkanRenderer.unbind
      VulkanRenderer.free_staging_buffers at h
    cases htgt : st.target <;> rw [htgt] at h <;>
      simp only [List.mem_cons, List.mem_append, List.mem_map, List.mem_flatten,
        List.mem_singleton, List.not_mem_nil] at h
    · rcases h with h | h | h | h | ((h | ⟨a, ha, heq⟩) | ⟨l, ⟨sb, hsb, rfl⟩, hmem⟩)
      · exact (DevCall.freeCommandBuffers.injEq ..).mp h
      · simp at h
      · simp at h
      · simp at h
      · exact h.elim
      · simp at heq
      · simp at hmem
    · rcases h with h | h | h | h | (((h | h) | ⟨a, ha, heq⟩) | ⟨l, ⟨sb, hsb, rfl⟩, hmem⟩)
      · exact (DevCall.freeCommandBuffers.injEq ..).mp h
      · simp at h
      · simp at h
      · simp at h
      · simp at h
      · exact h.elim
      · simp at heq
      · simp at hmem

/-- Witness for C5 at a concrete renderer state. -/
theorem teardown_order_witness :
    (stBound.dropRenderer).take 4 =
      [DevCall.freeCommandBuffers [CB.primary], DevCall.destroyCommandPool,
       DevCall.waitForFences, DevCall.destroyFence]
    ∧ ([CB.primary] : List CB) = [CB.primary] :=
  ⟨(teardown_order stBound).1,
   (teardown_order stBound).2 [CB.primary] (by decide)⟩

/-- C6 counterexample: on a cache miss (format 7 is not in stBound's cache)
get_or_create_renderpasses returns no render pass and performs no device
call — it neither constructs nor memoizes anything, contrary to the claim
that a miss constructs and memoizes a render pass for the format. -/
theorem get_or_create_miss :
    stBound.get_or_create_renderpasses 7 = (none, []) := rfl

/-- C6 amended: get_or_create_renderpasses is a pure, identity-stable cache
lookup that performs no device call and returns exactly the memoized entry
for the format; construction and memoization happen in the separate
create_renderpass, which issues exactly one createRenderPass call, and a
subsequent get_or_create of the same format returns precisely the pass it
created. -/
theorem renderpass_cache (st : VulkanRenderer) (format : Format) :
    (st.get_or_create_renderpasses format).2 = []
    ∧ (st.get_or_create_renderpasses format).1 = st.renderpasses.lookup format
    ∧ (((st.create_renderpass format).1.2).get_or_create_renderpasses format).1
        = some (st.create_renderpass format).1.1
    ∧ (st.create_renderpass format).2 = [DevCall.createRenderPass format] := by
  refine ⟨rfl, rfl, ?_, rfl⟩
  simp [VulkanRenderer.create_renderpass, VulkanRenderer.get_or_create_renderpasses,
    List.lookup]

/-- C7: reclaiming the staging pool destroys each staged buffer and frees
its backing memory (one destroyBuffer and one freeMemory per buffer, in
list order), retires exactly one AllocationId per staged buffer so that the
tracker's live_count drops by exactly the number of staged buffers — back
to its pre-staging value — and leaves the in-flight list empty. -/
theorem free_staging_buffers_reclaims (st : VulkanRenderer)
    (hn : (st.staging_buffers.map fun sb => sb.memory_allocation_id).Nodup)
    (hl : ∀ sb ∈ st.staging_buffers, sb.memory_allocation_id ∈ st.allocator.live) :
    (st.free_staging_buffers).1.staging_buffers = []
    ∧ (st.free_staging_buffers).1.allocator.live_count
        = st.allocator.live_count - st.staging_buffers.length
    ∧ st.staging_buffers.length ≤ st.allocator.live_count
    ∧ (st.free_staging_buffers).2
        = (st.staging_buffers.map fun sb =>
            [DevCall.destroyBuffer sb.buffer, DevCall.freeMemory sb.memory]).flatten := by
  have hl2 : ∀ id ∈ st.staging_buffers.map (fun sb => sb.memory_allocation_id),
      id ∈ st.allocator.live := by
    intro id hid
    rcases List.mem_map.mp hid with ⟨sb, hsb, rfl⟩
    exact hl sb hsb
  have h := freeIds_live_count
    (st.staging_buffers.map fun sb => sb.memory_allocation_id) st.allocator hn hl2
  refine ⟨rfl, ?_, ?_, rfl⟩
  · have := h.1
    rwa [List.length_map] at this
  · have := h.2
    rwa [List.length_map] at this

/-- Witness for C7 on a renderer with two in-flight staging buffers. -/
theorem free_staging_buffers_reclaims_witness :
    (stStaged.free_staging_buffers).1.staging_buffers = []
    ∧ (stStaged.free_staging_buffers).1.allocator.live_count
        = stStaged.allocator.live_count - stStaged.staging_buffers.length
    ∧ stStaged.staging_buffers.length ≤ stStaged.allocator.live_count
    ∧ (stStaged.free_staging_buffers).2
        = (stStaged.staging_buffers.map fun sb =>
            [DevCall.destroyBuffer sb.buffer, DevCall.freeMemory sb.memory]).flatten :=
  free_staging_buffers_reclaims stStaged (by decide) (by decide)

/-- C8: every render pass the renderer constructs has exactly two subpass
dependencies — an external→subpass-0 dependency waiting on prior
host/transfer/color-attachment writes, and a subpass-0→external dependency
making color-attachment writes visible to later transfer/host reads — and
its single color attachment uses the LOAD (not CLEAR) load operation with
the GENERAL image layout as both initial and final layout. -/
theorem renderpass_structure (format : Format) :
    ∃ d0 d1 a,
      (renderPassCreateInfo format).dependencies = [d0, d1]
      ∧ d0.src_subpass = SUBPASS_EXTERNAL
      ∧ d0.dst_subpass = some 0
      ∧ AccessFlag.HOST_WRITE ∈ d0.src_access_mask
      ∧ AccessFlag.TRANSFER_WRITE ∈ d0.src_access_mask
      ∧ AccessFlag.COLOR_ATTACHMENT_WRITE ∈ d0.src_access_mask
      ∧ PipelineStage.HOST ∈ d0.src_stage_mask
      ∧ PipelineStage.TRANSFER ∈ d0.src_stage_mask
      ∧ PipelineStage.COLOR_ATTACHMENT_OUTPUT ∈ d0.src_stage_mask
      ∧ d1.src_subpass = some 0
      ∧ d1.dst_subpass = SUBPASS_EXTERNAL
      ∧ AccessFlag.COLOR_ATTACHMENT_WRITE ∈ d1.src_access_mask
      ∧ AccessFlag.TRANSFER_READ ∈ d1.dst_access_mask
      ∧ AccessFlag.MEMORY_READ ∈ d1.dst_access_mask
      ∧ PipelineStage.TRANSFER ∈ d1.dst_stage_mask
      ∧ PipelineStage.HOST ∈ d1.dst_stage_mask
      ∧ (renderPassCreateInfo format).attachments = [a]
      ∧ a.format = format
      ∧ a.load_op = LoadOp.LOAD
      ∧ a.load_op ≠ LoadOp.CLEAR
      ∧ a.initial_layout = ImageLayout.GENERAL
      ∧ a.final_layout = ImageLayout.GENERAL :=
  ⟨_, _, _, rfl, rfl, rfl, by simp, by simp, by simp, by simp, by simp, by simp,
   rfl, rfl, by simp, by simp, by simp, by simp, by simp, rfl, rfl, rfl,
   by simp, rfl, rfl⟩

/-- C9 counterexample: with a bound target, one staging upload in the
callback and every device call succeeding, render returns the callback's
value, yet the staging command buffer's recording is never ended before the
return — so it is false that both command buffers' recordings are ended
before the value is surfaced. -/
theorem callback_value_staging_not_ended :
    (VulkanRenderer.render allOk stBound (64, 64) [64] (7 : Nat)).result = .ok 7
    ∧ DevCall.endCommandBuffer CB.staging
        ∉ (VulkanRenderer.render allOk stBound (64, 64) [64] (7 : Nat)).trace := by
  decide

/-- C9 amended: when a target is bound, the staging flag is clear (as it
always is, since nothing ever sets it) and the begin/end/reset/submit calls
succeed, render returns the drawing callback's value as its Ok result, the
callback having run, and only after the render pass is closed, the PRIMARY
command buffer's recording is ended, the fence is reset and the submission
is made — the trace ends with exactly those four calls in order; the
staging buffer's recording would additionally be ended just before the
primary's only if the recording_staging flag were set. -/
theorem render_returns_callback_value {α : Type} (ok : DevCall → Bool)
    (st : VulkanRenderer) (t : RenderTarget) (size : Nat × Nat)
    (uploads : List Nat) (r : α)
    (htarget : st.target = some t) (hflag : st.recording_staging = false)
    (hb : ok (.beginCommandBuffer .primary) = true)
    (he : ok (.endCommandBuffer .primary) = true)
    (hr : ok .resetFences = true)
    (hq : ok (.queueSubmit [.primary]) = true) :
    (st.render ok size uploads r).result = .ok r
    ∧ (st.render ok size uploads r).ranCallback = true
    ∧ ∃ mid, (st.render ok size uploads r).trace =
        DevCall.beginCommandBuffer CB.primary :: DevCall.cmdBeginRenderPass ::
          (mid ++ [DevCall.cmdEndRenderPass, DevCall.endCommandBuffer CB.primary,
                   DevCall.resetFences, DevCall.queueSubmit [CB.primary]]) := by
  have hflag2 : ((VulkanRenderer.runUploads ok st uploads).1).recording_staging = false := by
    rw [runUploads_flag]
    exact hflag
  unfold VulkanRenderer.render
  rw [htarget]
  simp only [hb, if_true, hflag2, if_false, Bool.false_eq_true,
    VulkanRenderer.finishFrame, he, hr, hq]
  refine ⟨by simp, by simp, ?_⟩
  exact ⟨(VulkanRenderer.runUploads ok st uploads).2, by simp⟩

/-- Witness for the amended C9 at a concrete bound renderer with one staging
upload and an all-succeeding device. -/
theorem render_returns_callback_value_witness :
    (VulkanRenderer.render allOk stBound (64, 64) [42] (5 : Nat)).result = .ok 5
    ∧ (VulkanRenderer.render allOk stBound (64, 64) [42] (5 : Nat)).ranCallback = true
    ∧ ∃ mid, (VulkanRenderer.render allOk stBound (64, 64) [42] (5 : Nat)).trace =
        DevCall.beginCommandBuffer CB.primary :: DevCall.cmdBeginRenderPass ::
          (mid ++ [DevCall.cmdEndRenderPass, DevCall.endCommandBuffer CB.primary,
                   DevCall.resetFences, DevCall.queueSubmit [CB.primary]]) :=
  render_returns_callback_value allOk stBound targetA (64, 64) [42] 5
    rfl rfl rfl rfl rfl rfl

/-- C10: with a target bound (and the staging flag clear, as it always is):
if beginning the primary command buffer fails, render returns the device
error with that single attempted call and the drawing callback is never
invoked; once the begin succeeds, the callback has run on every exit path,
and if ending the primary command buffer, resetting the fence or submitting
fails, the callback's value is discarded and render returns the device
error instead. -/
theorem render_error_paths {α : Type} (ok : DevCall → Bool)
    (st : VulkanRenderer) (t : RenderTarget) (size : Nat × Nat)
    (uploads : List Nat) (r : α)
    (htarget : st.target = some t) (hflag : st.recording_staging = false) :
    (ok (.beginCommandBuffer .primary) = false →
      st.render ok size uploads r
        = ⟨.error .Vk, st, [.beginCommandBuffer .primary], false⟩)
    ∧ (ok (.beginCommandBuffer .primary) = true →
        (st.render ok size uploads r).ranCallback = true)
    ∧ (ok (.beginCommandBuffer .primary) = true →
        (ok (.endCommandBuffer .primary) && ok .resetFences
          && ok (.queueSubmit [.primary])) = false →
        (st.render ok size uploads r).result = .error .Vk
        ∧ (st.render ok size uploads r).ranCallback = true) := by
  have hflag2 : ((VulkanRenderer.runUploads ok st uploads).1).recording_staging = false := by
    rw [runUploads_flag]
    exact hflag
  refine ⟨?_, ?_, ?_⟩
  · intro hb
    unfold VulkanRenderer.render
    rw [htarget]
    simp [hb]
  · intro hb
    unfold VulkanRenderer.render
    rw [htarget]
    simp only [hb, if_true, hflag2, Bool.false_eq_true, if_false,
      VulkanRenderer.finishFrame]
    by_cases he : ok (.endCommandBuffer .primary) <;>
      by_cases hr : ok .resetFences <;>
        by_cases hq : ok (.queueSubmit [.primary]) <;>
          simp [he, hr, hq]
  · intro hb hfail
    unfold VulkanRenderer.render
    rw [htarget]
    simp only [hb, if_true, hflag2, Bool.false_eq_true, if_false,
      VulkanRenderer.finishFrame]
    by_cases he : ok (.endCommandBuffer .primary) <;>
      by_cases hr : ok .resetFences <;>
        by_cases hq : ok (.queueSubmit [.primary]) <;>
          simp [he, hr, hq] at hfail ⊢

/-- Witness for C10: a failing begin yields the error with no callback run;
a failing submission yields the error with the callback having run. -/
theorem render_error_paths_witness :
    (VulkanRenderer.render noBegin stBound (64, 64) [64] (0 : Nat)
        = ⟨.error .Vk, stBound, [.beginCommandBuffer .primary], false⟩)
    ∧ ((VulkanRenderer.render noSubmit stBound (64, 64) [64] (0 : Nat)).result
          = .error .Vk
        ∧ (VulkanRenderer.render noSubmit stBound (64, 64) [64] (0 : Nat)).ranCallback
          = true) :=
  ⟨(render_error_paths noBegin stBound targetA (64, 64) [64] 0 rfl rfl).1 rfl,
   (render_error_paths noSubmit stBound targetA (64, 64) [64] 0 rfl rfl).2.2
     rfl (by decide)⟩

end Hihiirokane
